import Mathlib

/-!
Verification of the round state machine and live-classification pipeline of the
DuelingDoodles (quickdraw) web game.  The definitions below are a shallow
embedding of the game-logic source (`src/GameLogic.js`, `src/constants.js`,
`src/App.jsx`).  JavaScript numbers are modelled as exact rationals (`ℚ`);
`Math.pow` with a real exponent is modelled with the real power function;
fallible code paths (JS `TypeError` on `undefined`) are modelled with `Option`.
-/

namespace DuelingDoodles

/-! ### Constants (`src/constants.js`) -/

/-- `constants.BANNED_LABELS` (`constants.js` lines 8–25).  Note the entry
`"sweather"`, which does not occur in the label vocabulary (`LABELS` contains
`"sweater"`). -/
def BANNED_LABELS : List String := [
    "animal migration",
    "arm",
    "barn",
    "bat",
    "brain",
    "coffee cup",
    "circle",
    "hexagon",
    "stitches",
    "sweather",
    "van"
]

/-- `constants.GAME_DURATION = 30 + 0.5` (seconds), `constants.js` line 29. -/
def GAME_DURATION : ℚ := 30 + 1/2

/-- `constants.START_REJECT_THRESHOLD = 0.2`, `constants.js` line 32. -/
def START_REJECT_THRESHOLD : ℚ := 1/5

/-- `constants.REJECT_TIME_DELAY = 3 * 1000` (ms), `constants.js` line 33. -/
def REJECT_TIME_DELAY : ℚ := 3 * 1000

/-- `constants.REJECT_TIME_PER_LABEL = 3 * 1000` (ms), `constants.js` line 34. -/
def REJECT_TIME_PER_LABEL : ℚ := 3 * 1000

/-- `constants.SKIP_PENALTY = 3 * 1000` (ms), `constants.js` line 36. -/
def SKIP_PENALTY : ℚ := 3 * 1000

/-- The label vocabulary: the values of `constants.LABELS` (`constants.js`
lines 38–384), in index order "0".."344". -/
def LABELS : List String := [
    "aircraft carrier",
    "airplane",
    "alarm clock",
    "ambulance",
    "angel",
    "animal migration",
    "ant",
    "anvil",
    "apple",
    "arm",
    "asparagus",
    "axe",
    "backpack",
    "banana",
    "bandage",
    "barn",
    "baseball bat",
    "baseball",
    "basket",
    "basketball",
    "bat",
    "bathtub",
    "beach",
    "bear",
    "beard",
    "bed",
    "bee",
    "belt",
    "bench",
    "bicycle",
    "binoculars",
    "bird",
    "birthday cake",
    "blackberry",
    "blueberry",
    "book",
    "boomerang",
    "bottlecap",
    "bowtie",
    "bracelet",
    "brain",
    "bread",
    "bridge",
    "broccoli",
    "broom",
    "bucket",
    "bulldozer",
    "bus",
    "bush",
    "butterfly",
    "cactus",
    "cake",
    "calculator",
    "calendar",
    "camel",
    "camera",
    "camouflage",
    "campfire",
    "candle",
    "cannon",
    "canoe",
    "car",
    "carrot",
    "castle",
    "cat",
    "ceiling fan",
    "cell phone",
    "cello",
    "chair",
    "chandelier",
    "church",
    "circle",
    "clarinet",
    "clock",
    "cloud",
    "coffee cup",
    "compass",
    "computer",
    "cookie",
    "cooler",
    "couch",
    "cow",
    "crab",
    "crayon",
    "crocodile",
    "crown",
    "cruise ship",
    "cup",
    "diamond",
    "dishwasher",
    "diving board",
    "dog",
    "dolphin",
    "donut",
    "door",
    "dragon",
    "dresser",
    "drill",
    "drums",
    "duck",
    "dumbbell",
    "ear",
    "elbow",
    "elephant",
    "envelope",
    "eraser",
    "eye",
    "eyeglasses",
    "face",
    "fan",
    "feather",
    "fence",
    "finger",
    "fire hydrant",
    "fireplace",
    "firetruck",
    "fish",
    "flamingo",
    "flashlight",
    "flip flops",
    "floor lamp",
    "flower",
    "flying saucer",
    "foot",
    "fork",
    "frog",
    "frying pan",
    "garden hose",
    "garden",
    "giraffe",
    "goatee",
    "golf club",
    "grapes",
    "grass",
    "guitar",
    "hamburger",
    "hammer",
    "hand",
    "harp",
    "hat",
    "headphones",
    "hedgehog",
    "helicopter",
    "helmet",
    "hexagon",
    "hockey puck",
    "hockey stick",
    "horse",
    "hospital",
    "hot air balloon",
    "hot dog",
    "hot tub",
    "hourglass",
    "house plant",
    "house",
    "hurricane",
    "ice cream",
    "jacket",
    "jail",
    "kangaroo",
    "key",
    "keyboard",
    "knee",
    "knife",
    "ladder",
    "lantern",
    "laptop",
    "leaf",
    "leg",
    "light bulb",
    "lighter",
    "lighthouse",
    "lightning",
    "line",
    "lion",
    "lipstick",
    "lobster",
    "lollipop",
    "mailbox",
    "map",
    "marker",
    "matches",
    "megaphone",
    "mermaid",
    "microphone",
    "microwave",
    "monkey",
    "moon",
    "mosquito",
    "motorbike",
    "mountain",
    "mouse",
    "moustache",
    "mouth",
    "mug",
    "mushroom",
    "nail",
    "necklace",
    "nose",
    "ocean",
    "octagon",
    "octopus",
    "onion",
    "oven",
    "owl",
    "paint can",
    "paintbrush",
    "palm tree",
    "panda",
    "pants",
    "paper clip",
    "parachute",
    "parrot",
    "passport",
    "peanut",
    "pear",
    "peas",
    "pencil",
    "penguin",
    "piano",
    "pickup truck",
    "picture frame",
    "pig",
    "pillow",
    "pineapple",
    "pizza",
    "pliers",
    "police car",
    "pond",
    "pool",
    "popsicle",
    "postcard",
    "potato",
    "power outlet",
    "purse",
    "rabbit",
    "raccoon",
    "radio",
    "rain",
    "rainbow",
    "rake",
    "remote control",
    "rhinoceros",
    "rifle",
    "river",
    "roller coaster",
    "rollerskates",
    "sailboat",
    "sandwich",
    "saw",
    "saxophone",
    "school bus",
    "scissors",
    "scorpion",
    "screwdriver",
    "sea turtle",
    "see saw",
    "shark",
    "sheep",
    "shoe",
    "shorts",
    "shovel",
    "sink",
    "skateboard",
    "skull",
    "skyscraper",
    "sleeping bag",
    "smiley face",
    "snail",
    "snake",
    "snorkel",
    "snowflake",
    "snowman",
    "soccer ball",
    "sock",
    "speedboat",
    "spider",
    "spoon",
    "spreadsheet",
    "square",
    "squiggle",
    "squirrel",
    "stairs",
    "star",
    "steak",
    "stereo",
    "stethoscope",
    "stitches",
    "stop sign",
    "stove",
    "strawberry",
    "streetlight",
    "string bean",
    "submarine",
    "suitcase",
    "sun",
    "swan",
    "sweater",
    "swing set",
    "sword",
    "syringe",
    "t-shirt",
    "table",
    "teapot",
    "teddy-bear",
    "telephone",
    "television",
    "tennis racquet",
    "tent",
    "The Eiffel Tower",
    "The Great Wall of China",
    "The Mona Lisa",
    "tiger",
    "toaster",
    "toe",
    "toilet",
    "tooth",
    "toothbrush",
    "toothpaste",
    "tornado",
    "tractor",
    "traffic light",
    "train",
    "tree",
    "triangle",
    "trombone",
    "truck",
    "trumpet",
    "umbrella",
    "underwear",
    "van",
    "vase",
    "violin",
    "washing machine",
    "watermelon",
    "waterslide",
    "whale",
    "wheel",
    "windmill",
    "wine bottle",
    "wine glass",
    "wristwatch",
    "yoga",
    "zebra",
    "zigzag"
]

/-! ### Score filtering (`GameLogic.js` lines 33–63, `filterAndAdjustScores`) -/

/-- One classification result entry: `{ label, score }`. -/
structure Prediction where
  label : String
  score : ℚ
deriving Repr, DecidableEq

/-- The order of `filteredResult.sort((a, b) => b.score - a.score)`
(`GameLogic.js` line 55): stable descending sort by score.  An element `a`
may stay before `b` exactly when the comparator is nonpositive, i.e. when
`b.score ≤ a.score`.  The JS sort is stable (ES2019), and a stable sort's
output is uniquely determined by this order, so the stable
`List.insertionSort` below produces exactly the JS result. -/
def scoreDesc (a b : Prediction) : Prop := b.score ≤ a.score

instance : DecidableRel scoreDesc :=
  fun a b => inferInstanceAs (Decidable (b.score ≤ a.score))

/-- The easy-mode damping loop (`GameLogic.js` lines 47–54), expressed as a
recursion over the list with the running index `i`: entries with `amount > i`
are zeroed, the entry with `amount ≤ i < amount + 1` is scaled by
`i - amount`, later entries are untouched (the JS loop stops at
`i < amount + 1`). -/
def dampScores : List Prediction → ℚ → ℕ → List Prediction
  | [], _, _ => []
  | x :: xs, amount, i =>
    (if amount > (i : ℚ) then { label := x.label, score := 0 }
     else if (i : ℚ) < amount + 1 then
       { label := x.label, score := x.score * ((i : ℚ) - amount) }
     else x) :: dampScores xs amount (i + 1)

/-- `const filteredResult = data.filter((x) => !constants.BANNED_LABELS.includes(x.label))`
(`GameLogic.js` lines 39–41). -/
def filteredPredictions (data : List Prediction) : List Prediction :=
  data.filter (fun x => !(BANNED_LABELS.contains x.label))

/-- The state of `filteredResult` in `filterAndAdjustScores` just before the
normalization step (`GameLogic.js` lines 34–56): banned labels removed, easy
mode applied when `timeSpentDrawing` exceeds `REJECT_TIME_DELAY`
(`applyEasyMode = timeSpentDrawing - REJECT_TIME_DELAY`, inlined below) and
the top filtered score exceeds `START_REJECT_THRESHOLD`, then re-sorted
descending by score. -/
def filteredDamped (data : List Prediction) (timeSpentDrawing : ℚ) : List Prediction :=
  if data.isEmpty then []
  else if timeSpentDrawing - REJECT_TIME_DELAY > 0 ∧
      0 < (filteredPredictions data).length ∧
      ((filteredPredictions data).headD { label := "", score := 0 }).score
        > START_REJECT_THRESHOLD then
    List.insertionSort scoreDesc
      (dampScores (filteredPredictions data)
        ((timeSpentDrawing - REJECT_TIME_DELAY) / REJECT_TIME_PER_LABEL) 0)
  else
    filteredPredictions data

/-- `filteredResult.reduce((acc, x) => acc + x.score, 0)`
(`GameLogic.js` line 59). -/
def sumScores (l : List Prediction) : ℚ := l.foldl (fun acc x => acc + x.score) 0

/-- The normalization step `filteredResult.forEach((x) => (x.score /= sum))`
(`GameLogic.js` lines 59–60).  In JS a zero sum produces `Infinity`/`NaN`
scores; in `ℚ` division by zero gives `0`.  Every theorem below that depends
on normalized scores assumes a nonzero sum, where the two semantics agree. -/
def normalizeScores (l : List Prediction) : List Prediction :=
  l.map (fun x => { label := x.label, score := x.score / sumScores l })

/-- `filterAndAdjustScores` (`GameLogic.js` lines 33–63). -/
def filterAndAdjustScores (data : List Prediction) (timeSpentDrawing : ℚ) : List Prediction :=
  normalizeScores (filteredDamped data timeSpentDrawing)

/-- `filterAndAdjustScores` including the `!data` guard (`GameLogic.js`
line 34): a `null`/`undefined` input is modelled as `none` and returns `[]`
before the filter, damping and normalization steps run. -/
def filterAndAdjustScoresOpt : Option (List Prediction) → ℚ → List Prediction
  | none, _ => []
  | some data, t => filterAndAdjustScores data t

/-- Score of the first (top-ranked) element of a prediction list, `0` when the
list is empty. -/
def topScore (l : List Prediction) : ℚ := (l.headD { label := "", score := 0 }).score

/-- The largest score in a prediction list (`0` for the empty list). -/
def maxScore (l : List Prediction) : ℚ := (l.map Prediction.score).foldr max 0

/-! ### Game-over check (`GameLogic.js` lines 228–237, `checkGameOver`) -/

/-- The game phases of the round state machine.  The JS code stores them as
the strings `'menu'`, `'loading'`, `'countdown'`, `'playing'`, `'end'`;
`'end'` is named `ended` here because `end` is a Lean keyword. -/
inductive GameState where
  | menu
  | loading
  | countdown
  | playing
  | ended
deriving Repr, DecidableEq

/-- The guard of `checkGameOver` (`GameLogic.js` lines 229–234): `endGame`
(which sets the state to `'end'`) is invoked exactly when this returns
`true`.  Absent (`null`) timestamps are modelled as `none`. -/
def checkGameOverFires (gameState : GameState)
    (gameCurrentTime gameStartTime : Option ℚ) : Bool :=
  decide (gameState = GameState.playing) &&
    gameCurrentTime.isSome && gameStartTime.isSome &&
    decide ((gameCurrentTime.getD 0 - gameStartTime.getD 0) / 1000 > GAME_DURATION)

/-! ### Per-model statistics (`GameLogic.js` lines 257–293, `checkWordGuessed`) -/

/-- The `modelStats` record threaded through `checkWordGuessed`,
`endGame` and `updateTableData`. -/
structure ModelStats where
  correctGuessesModel1 : ℕ
  correctGuessesModel2 : ℕ
  lastPredictionTimeModel1 : ℚ
  lastPredictionTimeModel2 : ℚ
  avgPredictionTimeModel1 : ℚ
  avgPredictionTimeModel2 : ℚ
deriving Repr, DecidableEq

/-- The `setModelStats` updater inside `checkWordGuessed` (`GameLogic.js`
lines 264–288), transcribed verbatim — including the degenerate conditionals
`lastPredictionTimeModel1: predictedByModel1 ? currentTime : currentTime`
and `lastPredictionTimeModel2: predictedByModel2 ? currentTime : currentTime`
on lines 283–284, whose two branches are identical. -/
def updateStatsOnGuess (prevStats : ModelStats)
    (predictedByModel1 predictedByModel2 : Bool) (currentTime : ℚ) : ModelStats :=
  let avgPredictionTimeModel1 :=
    if predictedByModel1 then
      (prevStats.avgPredictionTimeModel1 * (prevStats.correctGuessesModel1 : ℚ) +
        (currentTime - prevStats.lastPredictionTimeModel1) / 1000) /
        ((prevStats.correctGuessesModel1 : ℚ) + 1)
    else prevStats.avgPredictionTimeModel1
  let avgPredictionTimeModel2 :=
    if predictedByModel2 then
      (prevStats.avgPredictionTimeModel2 * (prevStats.correctGuessesModel2 : ℚ) +
        (currentTime - prevStats.lastPredictionTimeModel2) / 1000) /
        ((prevStats.correctGuessesModel2 : ℚ) + 1)
    else prevStats.avgPredictionTimeModel2
  { correctGuessesModel1 :=
      if predictedByModel1 then prevStats.correctGuessesModel1 + 1
      else prevStats.correctGuessesModel1,
    correctGuessesModel2 :=
      if predictedByModel2 then prevStats.correctGuessesModel2 + 1
      else prevStats.correctGuessesModel2,
    lastPredictionTimeModel1 :=
      if predictedByModel1 then currentTime else currentTime,
    lastPredictionTimeModel2 :=
      if predictedByModel2 then currentTime else currentTime,
    avgPredictionTimeModel1 := avgPredictionTimeModel1,
    avgPredictionTimeModel2 := avgPredictionTimeModel2 }

/-- The effect of one `checkWordGuessed` call (`GameLogic.js` lines 257–293)
on the model statistics.  When the guard on line 258 fails the stats are
untouched; when either output array is empty the JS expression
`output1[0].label` throws (modelled as `none`); otherwise the stats updater
runs exactly when one of the top labels matches the current target
(`targets[targetIndex]`, which compares unequal to every label when the index
is out of range). -/
def checkWordGuessedStats (gameState : GameState)
    (output1 output2 : Option (List Prediction)) (targets : Option (List String))
    (targetIndex : ℕ) (currentTime : ℚ) (prevStats : ModelStats) : Option ModelStats :=
  match gameState, output1, output2, targets with
  | GameState.playing, some (p1 :: _), some (p2 :: _), some ts =>
      let predictedByModel1 : Bool := decide (ts[targetIndex]? = some p1.label)
      let predictedByModel2 : Bool := decide (ts[targetIndex]? = some p2.label)
      if predictedByModel1 || predictedByModel2 then
        some (updateStatsOnGuess prevStats predictedByModel1 predictedByModel2 currentTime)
      else
        some prevStats
  | GameState.playing, some [], some _, some _ => none
  | GameState.playing, some _, some [], some _ => none
  | _, _, _, _ => some prevStats

/-! ### Rating update (`GameLogic.js` lines 329–416, `updateTableData`) -/

/-- `model1Score` (`GameLogic.js` line 350): outcome score of model 1 for the
session. -/
def model1OutcomeScore (cg1 cg2 : ℕ) : ℚ :=
  if cg1 > cg2 then 1 else if cg1 < cg2 then 0 else 1/2

/-- `model2Score = 1 - model1Score` (`GameLogic.js` line 351). -/
def model2OutcomeScore (cg1 cg2 : ℕ) : ℚ := 1 - model1OutcomeScore cg1 cg2

/-- `expectedScore` inside `calculateElo` (`GameLogic.js` line 343):
`1 / (1 + Math.pow(10, (opponentElo - currentElo) / 400))`, with `Math.pow`
modelled as the real power function. -/
noncomputable def expectedScore (currentElo opponentElo : ℚ) : ℝ :=
  1 / (1 + (10 : ℝ) ^ (((opponentElo - currentElo) / 400 : ℚ) : ℝ))

/-- `calculateElo` (`GameLogic.js` lines 334–345): the tiered K-factor
(the `let K` if/else-if chain on lines 335–342, inlined), then
`Math.floor(currentElo + K * (score - expectedScore))`. -/
noncomputable def calculateElo (currentElo opponentElo score : ℚ) : ℤ :=
  ⌊(currentElo : ℝ) +
    ((if currentElo < 2100 then (32 : ℚ)
      else if 2100 ≤ currentElo ∧ currentElo < 2400 then 24
      else 16) : ℝ) *
    ((score : ℝ) - expectedScore currentElo opponentElo)⌋

/-- The K-factor exactly as the specification words it: 32 when
`currentElo < 2100`, 24 when `2100 ≤ currentElo < 2400`, 16 when
`currentElo ≥ 2400`. -/
def specK (currentElo : ℚ) : ℚ :=
  if currentElo < 2100 then 32 else if currentElo < 2400 then 24 else 16

/-- The new rating exactly as the specification words it:
`floor(currentElo + K * (outcomeScore - expected))` with
`expected = 1 / (1 + 10^((opponentElo - currentElo)/400))`. -/
noncomputable def specNewElo (currentElo opponentElo outcomeScore : ℚ) : ℤ :=
  ⌊(currentElo : ℝ) + (specK currentElo : ℝ) *
    ((outcomeScore : ℝ) - 1 / (1 + (10 : ℝ) ^ (((opponentElo - currentElo) / 400 : ℚ) : ℝ)))⌋

/-- One leaderboard row, the array
`[id, rank, model, elo, avgTime, params, correctGuesses]` of
`updateTableData` (`GameLogic.js` line 377).  `id`, `rank`, `elo`,
`correctGuesses` are JS numbers (modelled as `ℚ`); `avgTime` is stored as a
decimal string and read back with `parseFloat`, modelled by its numeric
value; `params` is carried through untouched. -/
structure LeaderboardRow where
  id : ℚ
  rank : ℚ
  model : String
  elo : ℚ
  avgTime : ℚ
  params : String
  correctGuesses : ℚ
deriving Repr, DecidableEq

/-- Rounding to two decimal places, modelling `toFixed(2)` in
`calculateAvgTime` (`GameLogic.js` line 373).  The exact tie-breaking of
`toFixed` on binary floats is immaterial to the theorems below, which never
depend on the rounded value. -/
def roundTo2 (q : ℚ) : ℚ := (⌊q * 100 + 1/2⌋ : ℤ) / 100

/-- `calculateAvgTime` (`GameLogic.js` lines 369–374). -/
def calculateAvgTime (prevAvgTime prevCorrectGuesses newAvgTime newCorrectGuesses : ℚ) : ℚ :=
  let totalPrevTime := prevAvgTime * prevCorrectGuesses
  let totalNewTime := newAvgTime * newCorrectGuesses
  let totalCorrectGuesses := prevCorrectGuesses + newCorrectGuesses
  if totalCorrectGuesses ≠ 0 then roundTo2 ((totalPrevTime + totalNewTime) / totalCorrectGuesses)
  else roundTo2 prevAvgTime

/-- The per-row update performed by the `LeaderboardData.map` callback of
`updateTableData` (`GameLogic.js` lines 376–413), given the two rows `row1`
and `row2` found for the participating models (from which the new Elo values
of lines 353–354 are computed; hoisting the Elo computation into the callback
changes nothing — it is pure). -/
noncomputable def updateRow (modelStats : ModelStats) (nameMap : String → String)
    (model1 model2 : String) (row1 row2 : LeaderboardRow)
    (row : LeaderboardRow) : LeaderboardRow :=
  if row.model == nameMap model1 then
    { row with
      elo := (calculateElo row1.elo row2.elo
        (model1OutcomeScore modelStats.correctGuessesModel1
          modelStats.correctGuessesModel2) : ℚ),
      avgTime := calculateAvgTime row.avgTime row.correctGuesses
        modelStats.avgPredictionTimeModel1 (modelStats.correctGuessesModel1 : ℚ),
      correctGuesses := row.correctGuesses + (modelStats.correctGuessesModel1 : ℚ) }
  else if row.model == nameMap model2 then
    { row with
      elo := (calculateElo row2.elo row1.elo
        (model2OutcomeScore modelStats.correctGuessesModel1
          modelStats.correctGuessesModel2) : ℚ),
      avgTime := calculateAvgTime row.avgTime row.correctGuesses
        modelStats.avgPredictionTimeModel2 (modelStats.correctGuessesModel2 : ℚ),
      correctGuesses := row.correctGuesses + (modelStats.correctGuessesModel2 : ℚ) }
  else row

/-- `updateTableData` (`GameLogic.js` lines 329–416).  `nameMap` stands for
the lookup `constants.MODELNAMEMAP[...]` (an opaque display-name table).  The
two `LeaderboardData.find(...)[3]` reads on lines 347–348 throw when no row
matches, modelled as `none`. -/
noncomputable def updateTableData (modelStats : ModelStats) (nameMap : String → String)
    (model1 model2 : String) (LeaderboardData : List LeaderboardRow) :
    Option (List LeaderboardRow) :=
  match LeaderboardData.find? (fun row => row.model == nameMap model1),
      LeaderboardData.find? (fun row => row.model == nameMap model2) with
  | some row1, some row2 =>
    some (LeaderboardData.map (updateRow modelStats nameMap model1 model2 row1 row2))
  | _, _ => none

/-- The frame property of `updateTableData` claimed by the specification: the
output has the same rows in the same positions; every row keeps its `id`,
`rank`, `model` and `params` fields; a row whose model name is not one of the
two participants is returned exactly unchanged; the participating rows have
`correctGuesses` incremented by the matching session count. -/
def updateTableDataFrame (modelStats : ModelStats) (nameMap : String → String)
    (model1 model2 : String) (rows out : List LeaderboardRow) : Prop :=
  out.length = rows.length ∧
  ∀ (i : ℕ) (old new : LeaderboardRow), rows[i]? = some old → out[i]? = some new →
    (new.id = old.id ∧ new.rank = old.rank ∧ new.model = old.model ∧
      new.params = old.params) ∧
    (old.model ≠ nameMap model1 → old.model ≠ nameMap model2 → new = old) ∧
    (old.model = nameMap model1 →
      new.correctGuesses = old.correctGuesses + (modelStats.correctGuessesModel1 : ℚ)) ∧
    (old.model ≠ nameMap model1 → old.model = nameMap model2 →
      new.correctGuesses = old.correctGuesses + (modelStats.correctGuessesModel2 : ℚ))

/-! ### Target queue construction (`App.jsx` lines 170–181 and
`GameLogic.js` lines 20–25) -/

/-- The destructuring swap `[array[i], array[j]] = [array[j], array[i]]`
(`GameLogic.js` line 23) on an immutable list.  Both indices are in range in
every call the shuffle makes; out-of-range reads leave the list unchanged. -/
def listSwap {α : Type} (l : List α) (i j : ℕ) : List α :=
  match l[i]?, l[j]? with
  | some a, some b => (l.set i b).set j a
  | _, _ => l

/-- The loop of `shuffleArray` (`GameLogic.js` lines 21–24): `i` runs from
`array.length - 1` down to `1`; `j = Math.floor(Math.random() * (i + 1))` is
a uniformly drawn index in `[0, i]`, modelled by an arbitrary choice function
`rand` reduced mod `i + 1`. -/
def fyLoop {α : Type} (rand : ℕ → ℕ) : List α → ℕ → List α
  | l, 0 => l
  | l, i + 1 => fyLoop rand (listSwap l (i + 1) (rand (i + 1) % (i + 2))) i

/-- `shuffleArray` (`GameLogic.js` lines 20–25), parameterized by the random
draws. -/
def shuffleArray {α : Type} (l : List α) (rand : ℕ → ℕ) : List α :=
  fyLoop rand l (l.length - 1)

/-- `possibleLabels` in `beginCountdown` (`App.jsx` lines 172–175):
`Object.values(constants.LABELS).filter((x) => !constants.BANNED_LABELS.includes(x))`. -/
def possibleLabels : List String :=
  LABELS.filter (fun x => !(BANNED_LABELS.contains x))

/-- An injective numeric encoding of strings (base-1114112 digits of the
character codes, with a leading 1), used only to make the duplicate-freeness
of the label vocabulary cheap to check: distinct codes imply distinct
strings. -/
def strCode (s : String) : ℕ := s.data.foldl (fun n c => n * 1114112 + c.toNat) 1

/-- Linear-time check that a list of naturals is strictly increasing. -/
def chainLt : List ℕ → Bool
  | [] => true
  | [_] => true
  | a :: b :: rest => decide (a < b) && chainLt (b :: rest)

/-! ## Theorems -/

set_option maxRecDepth 40000

/-- A strictly increasing chain is strictly increasing pairwise. -/
theorem chainLt_pairwise : ∀ (l : List ℕ), chainLt l = true → l.Pairwise (fun a b => a < b)
  | [], _ => List.Pairwise.nil
  | [a], _ => by simp
  | a :: b :: rest, h => by
    rw [chainLt, Bool.and_eq_true] at h
    have hab : a < b := of_decide_eq_true h.1
    have ih : (b :: rest).Pairwise (fun x y => x < y) :=
      chainLt_pairwise (b :: rest) h.2
    refine List.Pairwise.cons ?_ ih
    intro c hc
    rcases List.mem_cons.mp hc with rfl | hc
    · exact hab
    · exact lt_trans hab ((List.pairwise_cons.mp ih).1 c hc)

/-- The 335 selectable labels are pairwise distinct. -/
theorem possibleLabels_nodup : possibleLabels.Nodup := by
  have hsorted :
      chainLt (List.insertionSort (fun a b => a ≤ b) (possibleLabels.map strCode)) = true := by
    rfl
  have hp := chainLt_pairwise _ hsorted
  have hnd : (List.insertionSort (fun a b => a ≤ b) (possibleLabels.map strCode)).Nodup :=
    hp.imp (fun h => Nat.ne_of_lt h)
  have hmap : (possibleLabels.map strCode).Nodup :=
    ((List.perm_insertionSort _ _).nodup_iff).mp hnd
  exact List.Nodup.of_map strCode hmap

/-- Exactly 335 of the 345 vocabulary labels survive the banned filter: only
10 of the 11 banned entries occur in the vocabulary (`"sweather"` does not —
the vocabulary has `"sweater"`). -/
theorem possibleLabels_length : possibleLabels.length = 335 := by rfl

/-- The vocabulary has 345 labels. -/
theorem LABELS_length : LABELS.length = 345 := by rfl

/-- The banned list has 11 entries. -/
theorem BANNED_LABELS_length : BANNED_LABELS.length = 11 := by rfl

/-- Writing the element at position `j` of a `set` at position `i` with the
values read off at the opposite positions permutes the list: the core
cons/set commutation step. -/
theorem cons_set_perm {α : Type} (x b : α) :
    ∀ (xs : List α) (k : ℕ), xs[k]? = some b → (b :: xs.set k x).Perm (x :: xs)
  | [], k, h => by simp at h
  | y :: t, 0, h => by
    obtain rfl : y = b := by simpa using h
    exact List.Perm.swap x y t
  | y :: t, k + 1, h => by
    have ih := cons_set_perm x b t k (by simpa using h)
    have s1 : (b :: y :: t.set k x).Perm (y :: b :: t.set k x) := List.Perm.swap y b _
    have s2 : (y :: b :: t.set k x).Perm (y :: x :: t) := ih.cons y
    have s3 : (y :: x :: t).Perm (x :: y :: t) := List.Perm.swap x y t
    exact s1.trans (s2.trans s3)

/-- Swapping two in-range positions of a list permutes it. -/
theorem set_set_perm {α : Type} :
    ∀ (l : List α) (i j : ℕ) (a b : α),
      l[i]? = some a → l[j]? = some b → ((l.set i b).set j a).Perm l
  | [], _, _, _, _, hi, _ => by simp at hi
  | x :: xs, 0, 0, a, b, hi, _ => by
    obtain rfl : x = a := by simpa using hi
    exact List.Perm.refl _
  | x :: xs, 0, k + 1, a, b, hi, hj => by
    obtain rfl : x = a := by simpa using hi
    exact cons_set_perm x b xs k (by simpa using hj)
  | x :: xs, m + 1, 0, a, b, hi, hj => by
    obtain rfl : x = b := by simpa using hj
    exact cons_set_perm x a xs m (by simpa using hi)
  | x :: xs, m + 1, k + 1, a, b, hi, hj => by
    have ih := set_set_perm xs m k a b (by simpa using hi) (by simpa using hj)
    exact ih.cons x

/-- `listSwap` permutes the list. -/
theorem listSwap_perm {α : Type} (l : List α) (i j : ℕ) : (listSwap l i j).Perm l := by
  unfold listSwap
  split
  · next a b hi hj => exact set_set_perm l i j a b hi hj
  · exact List.Perm.refl l

/-- Each pass of the Fisher–Yates loop permutes the list. -/
theorem fyLoop_perm {α : Type} (rand : ℕ → ℕ) :
    ∀ (n : ℕ) (l : List α), (fyLoop rand l n).Perm l
  | 0, l => List.Perm.refl l
  | n + 1, l =>
    (fyLoop_perm rand n _).trans (listSwap_perm l (n + 1) (rand (n + 1) % (n + 2)))

/-- `shuffleArray` returns a permutation of its input, whatever the random
draws are. -/
theorem shuffleArray_perm {α : Type} (l : List α) (rand : ℕ → ℕ) :
    (shuffleArray l rand).Perm l :=
  fyLoop_perm rand (l.length - 1) l

/-- C1 (amended): with the game in state `playing` and both timestamps
present, `checkGameOver` triggers the transition to `end` exactly when
`gameCurrentTime > gameStartTime + 30500` ms — strictly after, never at or
before that instant. -/
theorem checkGameOver_fires_iff (c s : ℚ) :
    checkGameOverFires GameState.playing (some c) (some s) = true ↔ s + 30500 < c := by
  have key : (c - s) / 1000 > GAME_DURATION ↔ s + 30500 < c := by
    rw [GAME_DURATION, gt_iff_lt, lt_div_iff₀ (by norm_num : (0 : ℚ) < 1000)]
    constructor <;> intro h <;> linarith
  simp [checkGameOverFires, key]

/-- Witness for C1: one millisecond past the boundary the check fires. -/
theorem checkGameOver_fires_iff_witness :
    checkGameOverFires GameState.playing (some 30501) (some 0) = true :=
  (checkGameOver_fires_iff 30501 0).mpr (by norm_num)

/-- C1 (counterexample to the claim as stated): at `gameCurrentTime` exactly
`gameStartTime + 30500` ms — where the claim says the transition triggers —
`checkGameOver` does not fire, because the code compares with a strict `>`. -/
theorem checkGameOver_boundary_cx :
    checkGameOverFires GameState.playing (some 30500) (some 0) = false ∧
      (0 : ℚ) + 30500 ≤ 30500 := by
  constructor
  · norm_num [checkGameOverFires, GAME_DURATION]
  · norm_num

/-- C10: a missing (`null`/`undefined`) or empty prediction list makes
`filterAndAdjustScores` return the empty list at the initial guard, for every
drawing duration, before the normalization division is reached. -/
theorem filterAndAdjustScores_empty (t : ℚ) :
    filterAndAdjustScoresOpt none t = [] ∧ filterAndAdjustScoresOpt (some []) t = [] :=
  ⟨rfl, rfl⟩

/-- Witness for C10 at duration 0. -/
theorem filterAndAdjustScores_empty_witness :
    filterAndAdjustScoresOpt none 0 = [] ∧ filterAndAdjustScoresOpt (some []) 0 = [] :=
  filterAndAdjustScores_empty 0

/-- C5: the model with strictly more correct guesses gets outcome score 1 and
the other 0; equal counts give both models 0.5. -/
theorem outcomeScores_spec (cg1 cg2 : ℕ) :
    (cg2 < cg1 → model1OutcomeScore cg1 cg2 = 1 ∧ model2OutcomeScore cg1 cg2 = 0) ∧
    (cg1 < cg2 → model1OutcomeScore cg1 cg2 = 0 ∧ model2OutcomeScore cg1 cg2 = 1) ∧
    (cg1 = cg2 → model1OutcomeScore cg1 cg2 = 1/2 ∧ model2OutcomeScore cg1 cg2 = 1/2) := by
  refine ⟨fun h => ?_, fun h => ?_, fun h => ?_⟩ <;>
    · unfold model2OutcomeScore model1OutcomeScore
      split_ifs <;> first | (exfalso; omega) | norm_num

/-- Witness for C5 at the spec scenario counts 5 and 2 (and the draw 3, 3). -/
theorem outcomeScores_spec_witness :
    (model1OutcomeScore 5 2 = 1 ∧ model2OutcomeScore 5 2 = 0) ∧
    (model1OutcomeScore 3 3 = 1/2 ∧ model2OutcomeScore 3 3 = 1/2) :=
  ⟨(outcomeScores_spec 5 2).1 (by norm_num), (outcomeScores_spec 3 3).2.2 rfl⟩

/-- C3 (counterexample to the claim as stated): the target queue built over
the vocabulary minus the banned set is duplicate-free but has 335 elements,
not `|V| - |B| = 345 - 11 = 334`, because the banned entry `"sweather"` never
occurs in the vocabulary (which has `"sweater"`). -/
theorem shuffle_coverage_cx :
    (shuffleArray possibleLabels (fun _ => 0)).Nodup ∧
    (shuffleArray possibleLabels (fun _ => 0)).length
      ≠ LABELS.length - BANNED_LABELS.length := by
  have hperm := shuffleArray_perm possibleLabels (fun _ => 0)
  refine ⟨hperm.nodup_iff.mpr possibleLabels_nodup, ?_⟩
  rw [hperm.length_eq, possibleLabels_length, LABELS_length, BANNED_LABELS_length]
  decide

/-- C3 (amended): building the target queue over the vocabulary minus the
banned set produces a permutation with exactly `|V \ B| = 335` elements
(not `|V| - |B| = 334`: one banned entry is absent from the vocabulary), each
appearing exactly once, for every sequence of random draws. -/
theorem shuffle_coverage (rand : ℕ → ℕ) :
    (shuffleArray possibleLabels rand).length = 335 ∧
    ∀ x ∈ shuffleArray possibleLabels rand, (shuffleArray possibleLabels rand).count x = 1 := by
  have hperm := shuffleArray_perm possibleLabels rand
  refine ⟨hperm.length_eq.trans possibleLabels_length, fun x hx => ?_⟩
  have hnd : (shuffleArray possibleLabels rand).Nodup :=
    hperm.nodup_iff.mpr possibleLabels_nodup
  exact List.count_eq_one_of_mem hnd hx

/-- Witness for C3: under the identity draw sequence the queue has 335
entries and the first vocabulary word appears exactly once. -/
theorem shuffle_coverage_witness :
    (shuffleArray possibleLabels (fun i => i)).length = 335 ∧
    (shuffleArray possibleLabels (fun i => i)).count "aircraft carrier" = 1 :=
  ⟨(shuffle_coverage (fun i => i)).1,
    (shuffle_coverage (fun i => i)).2 "aircraft carrier"
      ((shuffleArray_perm possibleLabels (fun i => i)).mem_iff.mpr (by decide))⟩

/-- Damping only rewrites scores: every output element carries the label of
some input element. -/
theorem mem_dampScores_label :
    ∀ (l : List Prediction) (a : ℚ) (i : ℕ) (p : Prediction),
      p ∈ dampScores l a i → ∃ q ∈ l, p.label = q.label
  | [], _, _, p, h => by simp [dampScores] at h
  | x :: xs, a, i, p, h => by
    rw [dampScores] at h
    rcases List.mem_cons.mp h with h1 | h1
    · refine ⟨x, List.mem_cons_self x xs, ?_⟩
      subst h1
      split_ifs <;> rfl
    · obtain ⟨q, hq, hl⟩ := mem_dampScores_label xs a (i + 1) p h1
      exact ⟨q, List.mem_cons_of_mem x hq, hl⟩

/-- Damping keeps scores nonnegative when the input scores are. -/
theorem mem_dampScores_nonneg :
    ∀ (l : List Prediction) (a : ℚ) (i : ℕ) (p : Prediction),
      (∀ q ∈ l, 0 ≤ q.score) → p ∈ dampScores l a i → 0 ≤ p.score
  | [], _, _, p, _, h => by simp [dampScores] at h
  | x :: xs, a, i, p, hq, h => by
    rw [dampScores] at h
    rcases List.mem_cons.mp h with h1 | h1
    · subst h1
      split_ifs with hai hai2
      · exact le_refl 0
      · have hx : 0 ≤ x.score := hq x (List.mem_cons_self x xs)
        have hia : (0 : ℚ) ≤ (i : ℚ) - a := sub_nonneg.mpr (not_lt.mp hai)
        exact mul_nonneg hx hia
      · exact hq x (List.mem_cons_self x xs)
    · exact mem_dampScores_nonneg xs a (i + 1) p
        (fun q hq2 => hq q (List.mem_cons_of_mem x hq2)) h1

/-- Every element of the damped-and-sorted intermediate list carries the
label of an element that survived the banned filter. -/
theorem mem_filteredDamped_exists (data : List Prediction) (t : ℚ) (p : Prediction)
    (h : p ∈ filteredDamped data t) :
    ∃ q ∈ filteredPredictions data, p.label = q.label := by
  unfold filteredDamped at h
  split_ifs at h with h0 h1
  · simp at h
  · exact mem_dampScores_label _ _ _ p
      ((List.perm_insertionSort scoreDesc _).mem_iff.mp h)
  · exact ⟨p, h, rfl⟩

/-- Elements surviving the banned filter are not banned. -/
theorem mem_filteredPredictions_not_banned (data : List Prediction) (q : Prediction)
    (h : q ∈ filteredPredictions data) : q.label ∉ BANNED_LABELS := by
  unfold filteredPredictions at h
  simpa using (List.mem_filter.mp h).2

/-- C6: no element returned by `filterAndAdjustScores` has a banned label,
for every input list and drawing duration. -/
theorem filterAndAdjustScores_banned_excluded (data : List Prediction) (t : ℚ)
    (p : Prediction) (hp : p ∈ filterAndAdjustScores data t) :
    p.label ∉ BANNED_LABELS := by
  unfold filterAndAdjustScores normalizeScores at hp
  obtain ⟨r, hr, rfl⟩ := List.mem_map.mp hp
  obtain ⟨q, hq, hl⟩ := mem_filteredDamped_exists data t r hr
  show r.label ∉ BANNED_LABELS
  rw [hl]
  exact mem_filteredPredictions_not_banned data q hq

/-- Witness for C6 on a one-element input. -/
theorem filterAndAdjustScores_banned_excluded_witness :
    (⟨"cat", (1 : ℚ)⟩ : Prediction).label ∉ BANNED_LABELS :=
  filterAndAdjustScores_banned_excluded [⟨"cat", 1⟩] 0 ⟨"cat", 1⟩ (by
    norm_num +decide [filterAndAdjustScores, filteredDamped, filteredPredictions,
      normalizeScores, sumScores, BANNED_LABELS, REJECT_TIME_DELAY,
      START_REJECT_THRESHOLD])

/-- `reduce`-style folding of the scores equals the sum of the score list. -/
theorem sumScores_eq_sum_map (l : List Prediction) :
    sumScores l = (l.map Prediction.score).sum := by
  suffices h : ∀ (l : List Prediction) (acc : ℚ),
      l.foldl (fun a x => a + x.score) acc = acc + (l.map Prediction.score).sum by
    simpa [sumScores] using h l 0
  intro l
  induction l with
  | nil => intro acc; simp
  | cons x xs ih => intro acc; simp [ih]; ring

/-- Summing the pointwise-divided scores divides the sum. -/
theorem sum_map_div (l : List Prediction) (c : ℚ) :
    (l.map (fun x => x.score / c)).sum = (l.map Prediction.score).sum / c := by
  induction l with
  | nil => simp
  | cons x xs ih => simp [ih, add_div]

/-- All scores of the pre-normalization list are nonnegative when the input
scores are. -/
theorem filteredDamped_nonneg (data : List Prediction) (t : ℚ)
    (hnn : ∀ p ∈ data, 0 ≤ p.score) :
    ∀ p ∈ filteredDamped data t, 0 ≤ p.score := by
  intro p hp
  unfold filteredDamped at hp
  split_ifs at hp with h0 h1
  · simp at hp
  · refine mem_dampScores_nonneg _ _ _ p ?_
      ((List.perm_insertionSort scoreDesc _).mem_iff.mp hp)
    intro q hq
    unfold filteredPredictions at hq
    exact hnn q (List.mem_filter.mp hq).1
  · unfold filteredPredictions at hp
    exact hnn p (List.mem_filter.mp hp).1

/-- Normalization produces scores summing to exactly one whenever the
pre-normalization sum is nonzero. -/
theorem normalize_sum_one (l : List Prediction) (h : sumScores l ≠ 0) :
    sumScores (normalizeScores l) = 1 := by
  rw [sumScores_eq_sum_map, normalizeScores, List.map_map]
  have hcomp : (Prediction.score ∘ fun (x : Prediction) =>
      ({ label := x.label, score := x.score / sumScores l } : Prediction)) =
      fun (x : Prediction) => x.score / sumScores l := rfl
  rw [hcomp, sum_map_div, ← sumScores_eq_sum_map, div_self h]

/-- C2: whenever the scores remaining after banned-label filtering and
easy-mode damping are not all zero (and the input scores are nonnegative, as
classifier confidences are), the scores returned by `filterAndAdjustScores`
sum to exactly 1. -/
theorem filterAndAdjustScores_sum_one (data : List Prediction) (t : ℚ)
    (hnn : ∀ p ∈ data, 0 ≤ p.score)
    (hnz : ∃ p ∈ filteredDamped data t, p.score ≠ 0) :
    sumScores (filterAndAdjustScores data t) = 1 := by
  obtain ⟨p, hp, hps⟩ := hnz
  have hnn' := filteredDamped_nonneg data t hnn
  have hpos : 0 < sumScores (filteredDamped data t) := by
    rw [sumScores_eq_sum_map]
    have hmem : p.score ∈ (filteredDamped data t).map Prediction.score :=
      List.mem_map_of_mem Prediction.score hp
    have hall : ∀ x ∈ (filteredDamped data t).map Prediction.score, 0 ≤ x := by
      intro x hx
      obtain ⟨q, hq, rfl⟩ := List.mem_map.mp hx
      exact hnn' q hq
    have hle := List.single_le_sum hall p.score hmem
    have hppos : 0 < p.score := lt_of_le_of_ne (hnn' p hp) (Ne.symm hps)
    linarith
  exact normalize_sum_one _ (ne_of_gt hpos)

/-- Witness for C2 on a two-element input at drawing duration 0. -/
theorem filterAndAdjustScores_sum_one_witness :
    sumScores (filterAndAdjustScores [⟨"cat", 1/2⟩, ⟨"dog", 1/2⟩] 0) = 1 :=
  filterAndAdjustScores_sum_one [⟨"cat", 1/2⟩, ⟨"dog", 1/2⟩] 0
    (by
      intro p hp
      rcases List.mem_cons.mp hp with rfl | hp2
      · norm_num
      rcases List.mem_cons.mp hp2 with rfl | hp3
      · norm_num
      · simp at hp3)
    ⟨⟨"cat", 1/2⟩, by
      norm_num +decide [filteredDamped, filteredPredictions, BANNED_LABELS,
        REJECT_TIME_DELAY, START_REJECT_THRESHOLD], by norm_num⟩

/-- `maxScore` of a cons. -/
theorem maxScore_cons (p : Prediction) (l : List Prediction) :
    maxScore (p :: l) = max p.score (maxScore l) := rfl

/-- `maxScore` is invariant under permutation. -/
theorem maxScore_perm {l1 l2 : List Prediction} (h : l1.Perm l2) :
    maxScore l1 = maxScore l2 := by
  induction h with
  | nil => rfl
  | cons x _ ih => rw [maxScore_cons, maxScore_cons, ih]
  | swap x y l => exact max_left_comm y.score x.score (maxScore l)
  | trans _ _ ih1 ih2 => exact ih1.trans ih2

/-- Pointwise monotonicity of the easy-mode damping: at each rank, a larger
`amount` never yields a larger damped score (for a nonnegative input score). -/
theorem dampHead_mono (x : Prediction) (i : ℕ) (a1 a2 : ℚ)
    (hs : 0 ≤ x.score) (h12 : a1 ≤ a2) :
    (if a2 > (i : ℚ) then ({ label := x.label, score := 0 } : Prediction)
     else if (i : ℚ) < a2 + 1 then
       { label := x.label, score := x.score * ((i : ℚ) - a2) }
     else x).score ≤
    (if a1 > (i : ℚ) then ({ label := x.label, score := 0 } : Prediction)
     else if (i : ℚ) < a1 + 1 then
       { label := x.label, score := x.score * ((i : ℚ) - a1) }
     else x).score := by
  split_ifs <;> first
    | exact le_refl _
    | exact hs
    | exact mul_nonneg hs (by linarith)
    | exact mul_le_mul_of_nonneg_left (by linarith) hs
    | exact mul_le_of_le_one_right hs (by linarith)
    | linarith

/-- The largest damped score is antitone in the damping `amount`. -/
theorem maxScore_dampScores_mono :
    ∀ (l : List Prediction) (a1 a2 : ℚ) (i : ℕ),
      (∀ q ∈ l, 0 ≤ q.score) → a1 ≤ a2 →
      maxScore (dampScores l a2 i) ≤ maxScore (dampScores l a1 i)
  | [], _, _, _, _, _ => le_refl _
  | x :: xs, a1, a2, i, hq, h12 => by
    rw [dampScores, dampScores, maxScore_cons, maxScore_cons]
    exact max_le_max
      (dampHead_mono x i a1 a2 (hq x (List.mem_cons_self x xs)) h12)
      (maxScore_dampScores_mono xs a1 a2 (i + 1)
        (fun q hq2 => hq q (List.mem_cons_of_mem x hq2)) h12)

/-- Evaluation of `filteredDamped` when the easy-mode branch is taken. -/
theorem filteredDamped_eq_damped {data : List Prediction} {t : ℚ}
    (he : data.isEmpty = false) (hd : t - REJECT_TIME_DELAY > 0)
    (hg : 0 < (filteredPredictions data).length ∧
      ((filteredPredictions data).headD { label := "", score := 0 }).score
        > START_REJECT_THRESHOLD) :
    filteredDamped data t = List.insertionSort scoreDesc
      (dampScores (filteredPredictions data)
        ((t - REJECT_TIME_DELAY) / REJECT_TIME_PER_LABEL) 0) := by
  unfold filteredDamped
  rw [he]
  simp only [Bool.false_eq_true, if_false]
  exact if_pos ⟨hd, hg.1, hg.2⟩

/-- Evaluation of `filteredDamped` when the easy-mode branch is skipped for a
reason independent of the drawing duration. -/
theorem filteredDamped_eq_filtered {data : List Prediction} {t : ℚ}
    (he : data.isEmpty = false)
    (hg : ¬(0 < (filteredPredictions data).length ∧
      ((filteredPredictions data).headD { label := "", score := 0 }).score
        > START_REJECT_THRESHOLD)) :
    filteredDamped data t = filteredPredictions data := by
  unfold filteredDamped
  rw [he]
  simp only [Bool.false_eq_true, if_false]
  refine if_neg ?_
  rintro ⟨-, hl, hs⟩
  exact hg ⟨hl, hs⟩

/-- C9 (amended): for a fixed input with nonnegative scores and drawing
durations beyond `REJECT_TIME_DELAY`, a larger duration never yields a larger
top (largest) damped score in the pre-normalization list `filteredDamped`.
The original claim, read on the normalized output of
`filterAndAdjustScores`, is refuted by `easyMode_top_cx`. -/
theorem topDamped_antitone (data : List Prediction) (t1 t2 : ℚ)
    (hnn : ∀ p ∈ data, 0 ≤ p.score)
    (h1 : REJECT_TIME_DELAY < t1) (h12 : t1 ≤ t2) :
    maxScore (filteredDamped data t2) ≤ maxScore (filteredDamped data t1) := by
  by_cases he : data.isEmpty = true
  · unfold filteredDamped
    rw [if_pos he, if_pos he]
  · have he' : data.isEmpty = false := by simpa using he
    have hd1 : t1 - REJECT_TIME_DELAY > 0 := sub_pos.mpr h1
    have hd2 : t2 - REJECT_TIME_DELAY > 0 := sub_pos.mpr (lt_of_lt_of_le h1 h12)
    by_cases hg : 0 < (filteredPredictions data).length ∧
        ((filteredPredictions data).headD { label := "", score := 0 }).score
          > START_REJECT_THRESHOLD
    · rw [filteredDamped_eq_damped he' hd2 hg, filteredDamped_eq_damped he' hd1 hg,
        maxScore_perm (List.perm_insertionSort scoreDesc _),
        maxScore_perm (List.perm_insertionSort scoreDesc _)]
      refine maxScore_dampScores_mono _ _ _ 0 ?_ ?_
      · intro q hq
        unfold filteredPredictions at hq
        exact hnn q (List.mem_filter.mp hq).1
      · have hr : (0 : ℚ) < REJECT_TIME_PER_LABEL := by norm_num [REJECT_TIME_PER_LABEL]
        exact (div_le_div_iff_of_pos_right hr).mpr (by linarith)
    · rw [filteredDamped_eq_filtered he' hg, filteredDamped_eq_filtered he' hg]

/-- C9 (counterexample to the claim as stated): on the fixed input
`[cat 1/2, dog 3/10, house 1/5]` with both durations beyond
`REJECT_TIME_DELAY`, the longer duration 6600 ms yields top normalized score
1, strictly larger than the 4/7 yielded at 4500 ms — because damping zeroes
more labels and normalization then rescales the survivors up. -/
theorem easyMode_top_cx :
    REJECT_TIME_DELAY < 4500 ∧ (4500 : ℚ) ≤ 6600 ∧
    topScore (filterAndAdjustScores [⟨"cat", 1/2⟩, ⟨"dog", 3/10⟩, ⟨"house", 1/5⟩] 4500)
      < topScore (filterAndAdjustScores [⟨"cat", 1/2⟩, ⟨"dog", 3/10⟩, ⟨"house", 1/5⟩] 6600) := by
  refine ⟨by norm_num [REJECT_TIME_DELAY], by norm_num, ?_⟩
  norm_num +decide [filterAndAdjustScores, filteredDamped, filteredPredictions,
    dampScores, normalizeScores, sumScores, topScore, scoreDesc,
    List.insertionSort, List.orderedInsert, BANNED_LABELS, REJECT_TIME_DELAY,
    REJECT_TIME_PER_LABEL, START_REJECT_THRESHOLD]

/-- Witness for C9 (amended) on the same input and durations. -/
theorem topDamped_antitone_witness :
    maxScore (filteredDamped [⟨"cat", 1/2⟩, ⟨"dog", 3/10⟩, ⟨"house", 1/5⟩] 6600)
      ≤ maxScore (filteredDamped [⟨"cat", 1/2⟩, ⟨"dog", 3/10⟩, ⟨"house", 1/5⟩] 4500) :=
  topDamped_antitone [⟨"cat", 1/2⟩, ⟨"dog", 3/10⟩, ⟨"house", 1/5⟩] 4500 6600
    (by
      intro p hp
      rcases List.mem_cons.mp hp with rfl | hp2
      · norm_num
      rcases List.mem_cons.mp hp2 with rfl | hp3
      · norm_num
      rcases List.mem_cons.mp hp3 with rfl | hp4
      · norm_num
      · simp at hp4)
    (by norm_num [REJECT_TIME_DELAY]) (by norm_num)

/-- C7 (code-bug evidence): in state `playing` with only model 1's top
prediction matching the target (`"cat"` vs model 2's `"dog"`),
`checkWordGuessed` increments model 1's counter, updates model 1's running
average, and leaves model 2's counter and average unchanged — but it also
overwrites model 2's last-correct timestamp (5000 → 12000), because the
source conditional `predictedByModel2 ? currentTime : currentTime`
(`GameLogic.js` line 284) has identical branches.  The claim that the
non-matching model's timestamp stays unchanged names the evident intent; the
code is the slip. -/
theorem checkWordGuessed_nonmatching_timestamp_bug :
    checkWordGuessedStats GameState.playing (some [⟨"cat", 9/10⟩])
        (some [⟨"dog", 1/10⟩]) (some ["cat"]) 0 12000 ⟨0, 0, 5000, 5000, 0, 0⟩
      = some ⟨1, 0, 12000, 12000, 7, 0⟩ ∧
    (⟨0, 0, 5000, 5000, 0, 0⟩ : ModelStats).lastPredictionTimeModel2 = 5000 ∧
    (⟨1, 0, 12000, 12000, 7, 0⟩ : ModelStats).lastPredictionTimeModel2 = 12000 := by
  refine ⟨?_, rfl, rfl⟩
  norm_num +decide [checkWordGuessedStats, updateStatsOnGuess]

/-- The expected score of a model against an equally rated opponent is 1/2. -/
theorem expectedScore_self (e : ℚ) : expectedScore e e = 1/2 := by
  unfold expectedScore
  norm_num [sub_self, Real.rpow_zero]

/-- The winner of a 1000-vs-1000 match moves to 1016. -/
theorem calculateElo_self_win : calculateElo 1000 1000 1 = 1016 := by
  unfold calculateElo
  rw [if_pos (by norm_num : (1000 : ℚ) < 2100), expectedScore_self]
  show (⌊((1000 : ℚ) : ℝ) + ((32 : ℚ) : ℝ) * (((1 : ℚ) : ℝ) - 1/2)⌋ : ℤ) = 1016
  rw [show ((1000 : ℚ) : ℝ) + ((32 : ℚ) : ℝ) * (((1 : ℚ) : ℝ) - 1/2) = ((1016 : ℤ) : ℝ) by
    push_cast; norm_num]
  exact Int.floor_intCast 1016

/-- The loser of a 1000-vs-1000 match moves to 984. -/
theorem calculateElo_self_loss : calculateElo 1000 1000 0 = 984 := by
  unfold calculateElo
  rw [if_pos (by norm_num : (1000 : ℚ) < 2100), expectedScore_self]
  show (⌊((1000 : ℚ) : ℝ) + ((32 : ℚ) : ℝ) * (((0 : ℚ) : ℝ) - 1/2)⌋ : ℤ) = 984
  rw [show ((1000 : ℚ) : ℝ) + ((32 : ℚ) : ℝ) * (((0 : ℚ) : ℝ) - 1/2) = ((984 : ℤ) : ℝ) by
    push_cast; norm_num]
  exact Int.floor_intCast 984

/-- C4: `calculateElo` computes exactly the spec formula
`floor(currentElo + K * (outcomeScore - 1 / (1 + 10^((opponentElo - currentElo)/400))))`
with the K tiers 32 / 24 / 16 at the 2100 and 2400 boundaries; in particular
two 1000-rated models with outcome scores 1 and 0 move to 1016 and 984. -/
theorem calculateElo_matches_spec :
    (∀ currentElo opponentElo outcomeScore : ℚ,
      calculateElo currentElo opponentElo outcomeScore
        = specNewElo currentElo opponentElo outcomeScore) ∧
    calculateElo 1000 1000 1 = 1016 ∧ calculateElo 1000 1000 0 = 984 := by
  refine ⟨fun cur opp score => ?_, calculateElo_self_win, calculateElo_self_loss⟩
  unfold calculateElo specNewElo specK expectedScore
  split_ifs with h1 h2 h3 h4
  · norm_num
  · norm_num
  · exfalso
    rcases h2 with ⟨h2a, h2b⟩
    linarith
  · exfalso
    exact h2 ⟨not_lt.mp h1, h4⟩
  · norm_num

/-- Witness for C4: the general formula equality applied at ratings in the
middle K tier. -/
theorem calculateElo_matches_spec_witness :
    calculateElo 2200 2300 1 = specNewElo 2200 2300 1 :=
  calculateElo_matches_spec.1 2200 2300 1

/-- C8: whenever both participating models have a leaderboard row,
`updateTableData` succeeds and only rewrites the `elo`, `avgTime` and
`correctGuesses` fields of the two participating rows (incrementing
`correctGuesses` by the session counts); `id`, `rank`, `model` and `params`
are preserved everywhere and every non-participating row is returned exactly
unchanged, in its original position. -/
theorem updateTableData_frame_thm (stats : ModelStats) (nameMap : String → String)
    (m1 m2 : String) (rows : List LeaderboardRow) (r1 r2 : LeaderboardRow)
    (h1 : rows.find? (fun row => row.model == nameMap m1) = some r1)
    (h2 : rows.find? (fun row => row.model == nameMap m2) = some r2) :
    ∃ out, updateTableData stats nameMap m1 m2 rows = some out ∧
      updateTableDataFrame stats nameMap m1 m2 rows out := by
  unfold updateTableData
  rw [h1, h2]
  refine ⟨_, rfl, ?_, ?_⟩
  · exact List.length_map rows _
  · intro i old new hold hnew
    rw [List.getElem?_map, hold] at hnew
    have hfe : _ = new := Option.some.inj hnew
    subst hfe
    unfold updateRow
    by_cases hA : old.model = nameMap m1
    · have hba : (old.model == nameMap m1) = true := beq_iff_eq.mpr hA
      rw [hba]
      exact ⟨⟨rfl, rfl, rfl, rfl⟩, fun hcon _ => absurd hA hcon,
        fun _ => rfl, fun hcon _ => absurd hA hcon⟩
    · have hba : (old.model == nameMap m1) = false := beq_eq_false_iff_ne.mpr hA
      by_cases hB : old.model = nameMap m2
      · have hbb : (old.model == nameMap m2) = true := beq_iff_eq.mpr hB
        rw [hba, hbb]
        exact ⟨⟨rfl, rfl, rfl, rfl⟩, fun _ hcon => absurd hB hcon,
          fun hcon => absurd hcon hA, fun _ _ => rfl⟩
      · have hbb : (old.model == nameMap m2) = false := beq_eq_false_iff_ne.mpr hB
        rw [hba, hbb]
        exact ⟨⟨rfl, rfl, rfl, rfl⟩, fun _ _ => rfl,
          fun hcon => absurd hcon hA, fun _ hcon => absurd hcon hB⟩

/-- Witness for C8 on a three-row leaderboard: models "A" and "B" play,
row "C" is a bystander. -/
theorem updateTableData_frame_witness :
    ∃ out, updateTableData ⟨5, 2, 0, 0, 4, 3⟩ (fun s => s) "A" "B"
        [⟨1, 1, "A", 1000, 5, "10M", 10⟩, ⟨2, 2, "B", 1000, 6, "20M", 20⟩,
          ⟨3, 3, "C", 900, 7, "5M", 30⟩] = some out ∧
      updateTableDataFrame ⟨5, 2, 0, 0, 4, 3⟩ (fun s => s) "A" "B"
        [⟨1, 1, "A", 1000, 5, "10M", 10⟩, ⟨2, 2, "B", 1000, 6, "20M", 20⟩,
          ⟨3, 3, "C", 900, 7, "5M", 30⟩] out :=
  updateTableData_frame_thm ⟨5, 2, 0, 0, 4, 3⟩ (fun s => s) "A" "B"
    [⟨1, 1, "A", 1000, 5, "10M", 10⟩, ⟨2, 2, "B", 1000, 6, "20M", 20⟩,
      ⟨3, 3, "C", 900, 7, "5M", 30⟩]
    ⟨1, 1, "A", 1000, 5, "10M", 10⟩ ⟨2, 2, "B", 1000, 6, "20M", 20⟩ (by rfl) (by rfl)

end DuelingDoodles
